import Mathlib

/-!
Verification of the podcast TTS agent (ElevenLabs text-to-dialogue client).

The definitions below are a shallow embedding of the agent's pure decision
logic: mention filtering, JSON content extraction, zod-style schema
validation, reply-addressee construction, the synthesis dispatcher's
persistence/inline policy, and the MAX_INLINE_BYTES configuration parsing.
Stateful I/O (the MCP transport, the HTTP fetch, the filesystem) is made
explicit: the handler is a pure function from the inbound message and the
provider's HTTP response to the list of actions the agent performs.
-/

/-- Characters that are awkward to write literally under this file's
string conventions. -/
def lbrace : Char := Char.ofNat 123

def rbrace : Char := Char.ofNat 125

def btick : Char := Char.ofNat 96

/-! ## JSON values

A model of the values produced by JavaScript's JSON.parse.  Numbers keep
their source lexeme: no claim compares numeric values, and this avoids
modelling double rounding. -/

inductive Json where
  | null
  | bool (b : Bool)
  | num (lit : String)
  | str (s : String)
  | arr (elems : List Json)
  | obj (fields : List (String × Json))
deriving Inhabited

/-! ## JSON.parse

A total recursive-descent parser for the RFC 8259 grammar accepted by
JSON.parse, structural on a fuel counter.  Failure (thrown SyntaxError in
JS) is `none`. -/

def jsonWs (c : Char) : Bool := c == ' ' || c == '\t' || c == '\n' || c == '\r'

def skipJsonWs : List Char → List Char
  | [] => []
  | c :: cs => if jsonWs c then skipJsonWs cs else c :: cs

def digitChar (c : Char) : Bool := '0' ≤ c && c ≤ '9'

def grabDigits : List Char → List Char × List Char
  | [] => ([], [])
  | c :: cs =>
    if digitChar c then
      let (ds, r) := grabDigits cs
      (c :: ds, r)
    else ([], c :: cs)

def hexDigitVal (c : Char) : Option Nat :=
  if '0' ≤ c && c ≤ '9' then some (c.toNat - 48)
  else if 'a' ≤ c && c ≤ 'f' then some (c.toNat - 87)
  else if 'A' ≤ c && c ≤ 'F' then some (c.toNat - 55)
  else none

/-- Fraction part of a JSON number: either absent or a dot followed by at
least one digit. -/
def lexFracPart (cs : List Char) : Option (List Char × List Char) :=
  match cs with
  | '.' :: rest =>
    let (ds, r) := grabDigits rest
    if ds = [] then none else some ('.' :: ds, r)
  | _ => some ([], cs)

/-- Exponent part of a JSON number: either absent or e/E, optional sign,
at least one digit. -/
def lexExpPart (cs : List Char) : Option (List Char × List Char) :=
  match cs with
  | c :: rest =>
    if c == 'e' || c == 'E' then
      let (sgn, r1) :=
        match rest with
        | s :: r => if s == '+' || s == '-' then ([s], r) else (([] : List Char), rest)
        | [] => ([], rest)
      let (ds, r2) := grabDigits r1
      if ds = [] then none else some (c :: (sgn ++ ds), r2)
    else some ([], cs)
  | [] => some ([], [])

/-- Lex a JSON number lexeme: optional minus, integer part with no leading
zeros (a lone zero allowed), optional fraction and exponent. -/
def lexJsonNumber (cs : List Char) : Option (List Char × List Char) :=
  let (negPart, cs1) :=
    match cs with
    | '-' :: r => ((['-'] : List Char), r)
    | _ => ([], cs)
  match cs1 with
  | c :: rest =>
    if c == '0' then
      match lexFracPart rest with
      | some (f, r2) =>
        match lexExpPart r2 with
        | some (e, r3) => some (negPart ++ [c] ++ f ++ e, r3)
        | none => none
      | none => none
    else if digitChar c then
      let (ds, r1) := grabDigits rest
      match lexFracPart r1 with
      | some (f, r2) =>
        match lexExpPart r2 with
        | some (e, r3) => some (negPart ++ (c :: ds) ++ f ++ e, r3)
        | none => none
      | none => none
    else none
  | [] => none

/-- Parse the body of a JSON string literal after the opening quote.
Escapes are decoded; raw control characters below 0x20 are rejected, as
JSON.parse does. -/
def parseJsonStringBody : Nat → List Char → Option (List Char × List Char)
  | 0, _ => none
  | fuel + 1, cs =>
    match cs with
    | [] => none
    | c :: rest =>
      if c == '"' then some ([], rest)
      else if c == '\\' then
        match rest with
        | [] => none
        | e :: rest2 =>
          if e == 'u' then
            match rest2 with
            | a :: b :: c2 :: d :: rest3 =>
              match hexDigitVal a, hexDigitVal b, hexDigitVal c2, hexDigitVal d with
              | some x1, some x2, some x3, some x4 =>
                match parseJsonStringBody fuel rest3 with
                | some (s, r) => some (Char.ofNat (((x1 * 16 + x2) * 16 + x3) * 16 + x4) :: s, r)
                | none => none
              | _, _, _, _ => none
            | _ => none
          else
            let dec : Option Char :=
              if e == '"' then some '"'
              else if e == '\\' then some '\\'
              else if e == '/' then some '/'
              else if e == 'b' then some (Char.ofNat 8)
              else if e == 'f' then some (Char.ofNat 12)
              else if e == 'n' then some '\n'
              else if e == 'r' then some '\r'
              else if e == 't' then some '\t'
              else none
            match dec with
            | some ch =>
              match parseJsonStringBody fuel rest2 with
              | some (s, r) => some (ch :: s, r)
              | none => none
            | none => none
      else if c.toNat < 32 then none
      else
        match parseJsonStringBody fuel rest with
        | some (s, r) => some (c :: s, r)
        | none => none

mutual

/-- Parse one JSON value (leading whitespace skipped). -/
def parseJsonValue : Nat → List Char → Option (Json × List Char)
  | 0, _ => none
  | fuel + 1, cs0 =>
    let cs := skipJsonWs cs0
    match cs with
    | [] => none
    | c :: rest =>
      if c == '"' then
        match parseJsonStringBody (fuel + 1) rest with
        | some (s, r) => some (.str (String.mk s), r)
        | none => none
      else if c == lbrace then
        let cs1 := skipJsonWs rest
        match cs1 with
        | [] => none
        | d :: r1 =>
          if d == rbrace then some (.obj [], r1)
          else
            match parseJsonPair fuel (d :: r1) with
            | some (p, r2) =>
              match parseJsonMembersRest fuel r2 with
              | some (ps, r3) => some (.obj (p :: ps), r3)
              | none => none
            | none => none
      else if c == '[' then
        let cs1 := skipJsonWs rest
        match cs1 with
        | [] => none
        | d :: r1 =>
          if d == ']' then some (.arr [], r1)
          else
            match parseJsonValue fuel (d :: r1) with
            | some (v, r2) =>
              match parseJsonElemsRest fuel r2 with
              | some (vs, r3) => some (.arr (v :: vs), r3)
              | none => none
            | none => none
      else if c == 't' then
        match cs with
        | 't' :: 'r' :: 'u' :: 'e' :: r => some (.bool true, r)
        | _ => none
      else if c == 'f' then
        match cs with
        | 'f' :: 'a' :: 'l' :: 's' :: 'e' :: r => some (.bool false, r)
        | _ => none
      else if c == 'n' then
        match cs with
        | 'n' :: 'u' :: 'l' :: 'l' :: r => some (.null, r)
        | _ => none
      else if c == '-' || digitChar c then
        match lexJsonNumber cs with
        | some (lit, r) => some (.num (String.mk lit), r)
        | none => none
      else none

/-- Parse one `"key": value` member of an object. -/
def parseJsonPair : Nat → List Char → Option ((String × Json) × List Char)
  | 0, _ => none
  | fuel + 1, cs0 =>
    let cs := skipJsonWs cs0
    match cs with
    | '"' :: rest =>
      match parseJsonStringBody (fuel + 1) rest with
      | some (k, r1) =>
        match skipJsonWs r1 with
        | ':' :: r3 =>
          match parseJsonValue fuel r3 with
          | some (v, r4) => some ((String.mk k, v), r4)
          | none => none
        | _ => none
      | none => none
    | _ => none

/-- Parse the remaining members of an object after the first one:
`, member`* then the closing brace. -/
def parseJsonMembersRest : Nat → List Char → Option (List (String × Json) × List Char)
  | 0, _ => none
  | fuel + 1, cs0 =>
    match skipJsonWs cs0 with
    | [] => none
    | c :: rest =>
      if c == rbrace then some ([], rest)
      else if c == ',' then
        match parseJsonPair fuel rest with
        | some (p, r1) =>
          match parseJsonMembersRest fuel r1 with
          | some (ps, r2) => some (p :: ps, r2)
          | none => none
        | none => none
      else none

/-- Parse the remaining elements of an array after the first one:
`, value`* then the closing bracket. -/
def parseJsonElemsRest : Nat → List Char → Option (List Json × List Char)
  | 0, _ => none
  | fuel + 1, cs0 =>
    match skipJsonWs cs0 with
    | [] => none
    | c :: rest =>
      if c == ']' then some ([], rest)
      else if c == ',' then
        match parseJsonValue fuel rest with
        | some (v, r1) =>
          match parseJsonElemsRest fuel r1 with
          | some (vs, r2) => some (v :: vs, r2)
          | none => none
        | none => none
      else none

end

/-- JSON.parse: the whole input must be a single JSON value surrounded by
optional whitespace; anything else throws (here: `none`). -/
def jsonParse (s : String) : Option Json :=
  match parseJsonValue (2 * s.length + 8) s.data with
  | some (v, rest) => if skipJsonWs rest = [] then some v else none
  | none => none

/-! ## Data model and environment

`DialogueLine`, the message shape delivered by the transport, and the
environment-derived configuration globals of the agent process. -/

structure DialogueLine where
  text : String
  voice_id : String
deriving DecidableEq, Inhabited

structure ResolvedMessage where
  id : String
  threadName : String
  threadId : String
  senderId : String
  content : String
  timestamp : Nat
  mentions : List String
deriving DecidableEq, Inhabited

/-- The provider's HTTP response, as observed by the agent: `ok` is the
2xx flag, `bodyText` the text read on failure, `bodyBytes` the binary
audio read on success. -/
structure FetchResponse where
  ok : Bool
  status : Nat
  bodyText : String
  bodyBytes : List Nat
deriving DecidableEq, Inhabited

structure SynthesisResult where
  audioPath : String
  bytes : Nat
  mime : String
  format : String
  inlineBase64 : Option String
  inlin : Bool
  maxInlineBytes : Int
deriving DecidableEq, Inhabited

/-- The configuration globals read from the environment at startup.
`maxInlineRaw` is the raw MAX_INLINE_BYTES variable (`none` = unset). -/
structure Env where
  agentId : String
  returnBase64 : Bool
  maxInlineRaw : Option String
  outputFormat : String
  outputDir : String
deriving DecidableEq, Inhabited

/-! ## String utilities mirroring the JS ones -/

/-- Whitespace recognised by JS `trim` (ASCII subset; the inputs in this
development are ASCII). -/
def jsWsChar (c : Char) : Bool :=
  c == ' ' || c == '\t' || c == '\n' || c == '\r' || c == Char.ofNat 11 || c == Char.ofNat 12

/-- JS `String.prototype.trim`. -/
def jsTrim (s : String) : String :=
  String.mk (((s.data.dropWhile jsWsChar).reverse.dropWhile jsWsChar).reverse)

/-- JS `toLowerCase` on the ASCII range. -/
def jsToLower (s : String) : String := String.mk (s.data.map Char.toLower)

/-- `raw.replace(/^@/, "")`: drop a single leading at-sign. -/
def stripLeadingAt (s : String) : String :=
  match s.data with
  | '@' :: rest => String.mk rest
  | _ => s

/-- `s.split(/[#:]/, 1)[0]`: everything before the first hash or colon. -/
def beforeHashColon (s : String) : String :=
  String.mk (s.data.takeWhile (fun c => !(c == '#' || c == ':')))

/-- `NORMALIZED_AGENT_ID = CORAL_AGENT_ID.replace(/^@/, "").toLowerCase()`. -/
def normalizedAgentId (env : Env) : String := jsToLower (stripLeadingAt env.agentId)

/-- `normalizeMention`: trim, strip one leading at-sign, cut at the first
hash or colon, lowercase. -/
def normalizeMention (raw : String) : String :=
  jsToLower (beforeHashColon (stripLeadingAt (jsTrim raw)))

/-- `shouldRespond`: not our own message, and some mention normalises to
our id. -/
def shouldRespond (env : Env) (msg : ResolvedMessage) : Bool :=
  if msg.senderId == env.agentId then false
  else if msg.mentions.isEmpty then false
  else msg.mentions.any (fun m => normalizeMention m == normalizedAgentId env)

/-- JS `Set.prototype.add`: append if absent, keeping insertion order. -/
def addUnique (acc : List String) (x : String) : List String :=
  if x ∈ acc then acc else acc ++ [x]

/-- The predicate under which `buildMentions` keeps an original mention:
nonempty after normalization and not in the ignored set
(the agent's own normalized id and "article_fetcher"). -/
def keepsMention (env : Env) (m : String) : Prop :=
  normalizeMention m ≠ "" ∧ normalizeMention m ≠ normalizedAgentId env ∧
    normalizeMention m ≠ "article_fetcher"

instance (env : Env) (m : String) : Decidable (keepsMention env m) := by
  unfold keepsMention; infer_instance

/-- `buildMentions`: a JS Set filled with the sender (if truthy), the
original mentions that survive `keepsMention`, then the agent's own id;
returned in insertion order. -/
def buildMentions (env : Env) (msg : ResolvedMessage) : List String :=
  let start := if msg.senderId ≠ "" then addUnique [] msg.senderId else []
  let withMentions := msg.mentions.foldl
    (fun acc m => if keepsMention env m then addUnique acc m else acc) start
  addUnique withMentions env.agentId

/-! ## Schema validation (the zod schemas)

`lineSchema = z.object(text: z.string().min(1), voice_id: z.string().min(1))`,
`payloadSchema = z.object(dialogue: z.array(lineSchema).min(1))`,
`altSchema = z.object(inputs: z.array(lineSchema).min(1))`.
zod objects strip unknown keys and require the declared ones; JS objects
built by JSON.parse keep the last duplicate of a repeated key. -/

def objLookup (fields : List (String × Json)) (key : String) : Option Json :=
  match fields with
  | [] => none
  | (k, v) :: rest =>
    match objLookup rest key with
    | some v2 => some v2
    | none => if k = key then some v else none

/-- Field access on a JSON object value. -/
def objField (j : Json) (key : String) : Option Json :=
  match j with
  | .obj fields => objLookup fields key
  | _ => none

def lineSafeParse (j : Json) : Option DialogueLine :=
  match j with
  | .obj fields =>
    match objLookup fields "text", objLookup fields "voice_id" with
    | some (.str t), some (.str v) =>
      if 1 ≤ t.length ∧ 1 ≤ v.length then some ⟨t, v⟩ else none
    | _, _ => none
  | _ => none

def linesOfJsonList : List Json → Option (List DialogueLine)
  | [] => some []
  | j :: rest =>
    match lineSafeParse j with
    | some l =>
      match linesOfJsonList rest with
      | some ls => some (l :: ls)
      | none => none
    | none => none

/-- `z.array(lineSchema).min(1)`. -/
def lineArraySafeParse (j : Json) : Option (List DialogueLine) :=
  match j with
  | .arr elems =>
    match linesOfJsonList elems with
    | some ls => if 1 ≤ ls.length then some ls else none
    | none => none
  | _ => none

/-- `payloadSchema.safeParse`. -/
def payloadSafeParse (j : Json) : Option (List DialogueLine) :=
  match j with
  | .obj fields =>
    match objLookup fields "dialogue" with
    | some dj => lineArraySafeParse dj
    | none => none
  | _ => none

/-- `altSchema.safeParse`. -/
def altSafeParse (j : Json) : Option (List DialogueLine) :=
  match j with
  | .obj fields =>
    match objLookup fields "inputs" with
    | some dj => lineArraySafeParse dj
    | none => none
  | _ => none

/-- The payload-then-alt cascade both extraction strategies run on a
parsed candidate. -/
def schemasAttempt (j : Json) : Option (List DialogueLine) :=
  match payloadSafeParse j with
  | some d => some d
  | none => altSafeParse j

/-! ## Fenced-block matching

`trimmed.match(/```json([\s\S]*?)```/i) || trimmed.match(/```([\s\S]*?)```/)`
with the first capture group.  Leftmost match; the lazy star gives the
shortest interior up to the next closing fence; if a start has no closing
fence, later starts are tried. -/

def startsWithTicks : List Char → Bool
  | a :: b :: c :: _ => a == btick && b == btick && c == btick
  | _ => false

/-- Case-insensitive test for three backticks followed by "json". -/
def startsWithTicksJson : List Char → Bool
  | a :: b :: c :: j :: s :: o :: n :: _ =>
    a == btick && b == btick && c == btick &&
      j.toLower == 'j' && s.toLower == 's' && o.toLower == 'o' && n.toLower == 'n'
  | _ => false

/-- Split at the earliest occurrence of a closing triple-backtick:
`some (before, after)` with the ticks dropped. -/
def splitAtTicks : List Char → Option (List Char × List Char)
  | [] => none
  | c :: cs =>
    if startsWithTicks (c :: cs) then some ([], cs.drop 2)
    else
      match splitAtTicks cs with
      | some (pre, post) => some (c :: pre, post)
      | none => none

/-- Capture group of the first regex (```json fence, case-insensitive
tag). -/
def fenceScanJson : List Char → Option (List Char)
  | [] => none
  | c :: cs =>
    if startsWithTicksJson (c :: cs) then
      match splitAtTicks ((c :: cs).drop 7) with
      | some (pre, _) => some pre
      | none => fenceScanJson cs
    else fenceScanJson cs

/-- Capture group of the second regex (untagged ``` fence). -/
def fenceScanAny : List Char → Option (List Char)
  | [] => none
  | c :: cs =>
    if startsWithTicks (c :: cs) then
      match splitAtTicks ((c :: cs).drop 3) with
      | some (pre, _) => some pre
      | none => fenceScanAny cs
    else fenceScanAny cs

/-- `m1 || m2` on the two regex matches, reduced to the capture group the
code reads (`fence[1]`). -/
def findFenceCapture (s : String) : Option String :=
  match fenceScanJson s.data with
  | some cap => some (String.mk cap)
  | none =>
    match fenceScanAny s.data with
    | some cap => some (String.mk cap)
    | none => none

/-! ## extractInputs -/

def emptyContentMsg : String := "Empty message content; expected JSON with dialogue"

def unableMsg : String :=
  "Unable to parse dialogue JSON; expected \x7b dialogue: [...] \x7d or \x7b inputs: [...] \x7d."

/-- The fenced-JSON stage of `extractInputs` plus the terminal throw: what
runs when the direct parse did not return.  The capture must be truthy
(nonempty); its trimmed interior must parse and satisfy one of the two
schemas, otherwise the unable-to-parse error is thrown. -/
def fenceStage (trimmed : String) : Except String (List DialogueLine) :=
  match findFenceCapture trimmed with
  | some cap =>
    if cap ≠ "" then
      match jsonParse (jsTrim cap) with
      | some j =>
        match schemasAttempt j with
        | some d => .ok d
        | none => .error unableMsg
      | none => .error unableMsg
    else .error unableMsg
  | none => .error unableMsg

/-- `extractInputs`: trim; empty content throws; then direct JSON parse
with schema cascade; on any failure there, the fenced-block stage. -/
def extractInputs (raw : String) : Except String (List DialogueLine) :=
  let trimmed := jsTrim raw
  if trimmed = "" then .error emptyContentMsg
  else
    match jsonParse trimmed with
    | some j =>
      match schemasAttempt j with
      | some d => .ok d
      | none => fenceStage trimmed
    | none => fenceStage trimmed

/-! ## MAX_INLINE_BYTES -/

/-- `Number.parseInt(raw, 10)`: skip leading whitespace, optional sign,
then the maximal digit prefix; `none` models NaN.  (Digit strings are kept
exact; the double rounding of values beyond 2^53 is not modelled — no
claim depends on it.) -/
def jsParseIntDec (s : String) : Option Int :=
  let cs := s.data.dropWhile jsWsChar
  let (sgn, cs1) : Int × List Char :=
    match cs with
    | '-' :: r => (-1, r)
    | '+' :: r => (1, r)
    | _ => (1, cs)
  let (ds, _) := grabDigits cs1
  if ds = [] then none
  else some (sgn * (ds.foldl (fun a c => a * 10 + (c.toNat - 48)) 0 : Nat))

def defaultMaxInline : Int := 5 * 1024 * 1024

/-- The `MAX_INLINE_BYTES` initialiser: unset or empty raw value →
default; `Number.parseInt` NaN → default; parsed value not strictly
positive → default; otherwise the parsed value. -/
def maxInlineBytesOf (raw : Option String) : Int :=
  match raw with
  | none => defaultMaxInline
  | some s =>
    if s = "" then defaultMaxInline
    else
      match jsParseIntDec s with
      | none => defaultMaxInline
      | some v => if 0 < v then v else defaultMaxInline

/-! ## Synthesis dispatcher -/

def base64Alphabet : List Char :=
  "ABCDEFGHIJKLMNOPQRSTUVWXYZabcdefghijklmnopqrstuvwxyz0123456789+/".data

def base64Digit (n : Nat) : Char := base64Alphabet.getD n 'A'

/-- `Buffer.prototype.toString("base64")`. -/
def base64Encode : List Nat → String
  | [] => ""
  | [a] =>
    let n := (a % 256) * 65536
    String.mk [base64Digit (n / 262144), base64Digit (n / 4096 % 64), '=', '=']
  | [a, b] =>
    let n := (a % 256) * 65536 + (b % 256) * 256
    String.mk [base64Digit (n / 262144), base64Digit (n / 4096 % 64), base64Digit (n / 64 % 64), '=']
  | a :: b :: c :: rest =>
    let n := (a % 256) * 65536 + (b % 256) * 256 + (c % 256)
    String.mk [base64Digit (n / 262144), base64Digit (n / 4096 % 64), base64Digit (n / 64 % 64),
      base64Digit (n % 64)] ++ base64Encode rest

def lineToJson (l : DialogueLine) : Json :=
  .obj [("text", .str l.text), ("voice_id", .str l.voice_id)]

/-- The POST body `JSON.stringify({ inputs })`, as its JSON value. -/
def elevenLabsRequestBody (inputs : List DialogueLine) : Json :=
  .obj [("inputs", .arr (inputs.map lineToJson))]

/-- `synthesizeWithElevenLabs` after the fetch returns: non-2xx throws an
error carrying status and body text; otherwise the audio is persisted
under `OUTPUT_DIR/podcast_<now>.mp3` and the result is assembled, with the
base64 payload attached only when the inline policy is on and the byte
length is at most MAX_INLINE_BYTES. -/
def synthesizeWithElevenLabs (env : Env) (_inputs : List DialogueLine)
    (res : FetchResponse) (now : Nat) : Except String SynthesisResult :=
  if res.ok = false then
    .error ("ElevenLabs error " ++ toString res.status ++ ": " ++ res.bodyText)
  else
    let buf := res.bodyBytes
    let maxB := maxInlineBytesOf env.maxInlineRaw
    let inl := env.returnBase64 && decide ((buf.length : Int) ≤ maxB)
    .ok { audioPath := env.outputDir ++ "/podcast_" ++ toString now ++ ".mp3"
          bytes := buf.length
          mime := "audio/mpeg"
          format := env.outputFormat
          inlineBase64 := if inl then some (base64Encode buf) else none
          inlin := inl
          maxInlineBytes := maxB }

/-! ## Handler -/

/-- JSON value of a `SynthesisResult` under `JSON.stringify` (an
`undefined` field is omitted). -/
def synthesisToJson (r : SynthesisResult) : Json :=
  .obj ([("audioPath", .str r.audioPath), ("bytes", .num (toString r.bytes)),
    ("mime", .str r.mime), ("format", .str r.format)] ++
    (match r.inlineBase64 with
     | some b => [("inlineBase64", Json.str b)]
     | none => []) ++
    [("inline", .bool r.inlin), ("maxInlineBytes", .num (toString r.maxInlineBytes))])

/-- Reply sent when extraction fails. -/
def errorReplyJson (e : String) : Json :=
  .obj [("success", .bool false), ("error", .str e)]

/-- Reply sent on successful synthesis. -/
def successReplyJson (inputs : List DialogueLine) (r : SynthesisResult) : Json :=
  .obj [("success", .bool true), ("inputs", .arr (inputs.map lineToJson)),
    ("elevenlabs", synthesisToJson r)]

/-- Reply sent when synthesis fails after extraction succeeded. -/
def failReplyJson (e : String) (inputs : List DialogueLine) : Json :=
  .obj [("success", .bool false), ("error", .str e),
    ("inputs", .arr (inputs.map lineToJson))]

/-- The observable actions `handleMessage` performs: issuing the synthesis
POST, and sending a reply (its body given as the JSON value that is
stringified). -/
inductive AgentAction where
  | synthCall (inputs : List DialogueLine) (body : Json)
  | send (threadId : String) (content : Json) (mentions : List String)

/-- `handleMessage`, with the provider's response and the timestamp as
explicit inputs: filter, extract (failure → structured error reply),
then synthesize (the POST is issued either way) and reply with success or
structured failure. -/
def handleMessage (env : Env) (msg : ResolvedMessage) (res : FetchResponse)
    (now : Nat) : List AgentAction :=
  if shouldRespond env msg = true then
    let mentions := buildMentions env msg
    match extractInputs msg.content with
    | .error e => [.send msg.threadId (errorReplyJson e) mentions]
    | .ok inputs =>
      match synthesizeWithElevenLabs env inputs res now with
      | .ok audio =>
        [.synthCall inputs (elevenLabsRequestBody inputs),
          .send msg.threadId (successReplyJson inputs audio) mentions]
      | .error e =>
        [.synthCall inputs (elevenLabsRequestBody inputs),
          .send msg.threadId (failReplyJson e inputs) mentions]
  else []

/-- Number of synthesis requests issued by a sequence of actions. -/
def countSynthCalls (as : List AgentAction) : Nat :=
  (as.filter fun a => match a with | .synthCall _ _ => true | _ => false).length

/-! ## Concrete fixtures used by the claim theorems -/

def sampleEnv : Env :=
  { agentId := "podcast_tts", returnBase64 := false, maxInlineRaw := none
    outputFormat := "mp3_44100_128", outputDir := "out" }

def sampleDialogueContent : String :=
  "\x7b\"dialogue\":[\x7b\"text\":\"Hi\",\"voice_id\":\"v1\"\x7d]\x7d"

def sampleMsg : ResolvedMessage :=
  { id := "m1", threadName := "t", threadId := "thread-1", senderId := "user1"
    content := sampleDialogueContent, timestamp := 0, mentions := ["podcast_tts"] }

/-- The same dialogue content with a sibling force flag, as the spec's
envelope describes it. -/
def forceDialogueContent : String :=
  "\x7b\"dialogue\":[\x7b\"text\":\"Hi\",\"voice_id\":\"v1\"\x7d],\"force\":true\x7d"

def forceMsg : ResolvedMessage :=
  { id := "m2", threadName := "t", threadId := "thread-1", senderId := "user1"
    content := forceDialogueContent, timestamp := 0, mentions := ["podcast_tts"] }

def badMsg : ResolvedMessage :=
  { id := "m3", threadName := "t", threadId := "thread-1", senderId := "user1"
    content := "hello", timestamp := 0, mentions := ["podcast_tts"] }

def mentionMsg : ResolvedMessage :=
  { id := "m4", threadName := "t", threadId := "thread-1", senderId := "user1"
    content := "", timestamp := 0
    mentions := ["podcast_tts", "article_fetcher", "other_agent"] }

def okResponse : FetchResponse :=
  { ok := true, status := 200, bodyText := "", bodyBytes := [1, 2, 3] }

def res500 : FetchResponse :=
  { ok := false, status := 500, bodyText := "boom", bodyBytes := [] }

def res999 : FetchResponse :=
  { ok := true, status := 200, bodyText := "", bodyBytes := List.replicate 999 0 }

def res1001 : FetchResponse :=
  { ok := true, status := 200, bodyText := "", bodyBytes := List.replicate 1001 0 }

/-- Environment with the inline-return policy on and a 1000-byte ceiling. -/
def inlineEnv : Env :=
  { agentId := "podcast_tts", returnBase64 := true, maxInlineRaw := some "1000"
    outputFormat := "mp3_44100_128", outputDir := "out" }

/-- Environment whose configured output format tag is `wav`. -/
def wavEnv : Env :=
  { agentId := "podcast_tts", returnBase64 := false, maxInlineRaw := none
    outputFormat := "wav", outputDir := "out" }

/-- The spec's brace-balance example: a dialogue object embedded in prose
with no code fence, with escaped quotes inside a string literal. -/
def specProseInput : String :=
  "Intro \x7b\"dialogue\":[\x7b\"text\":\"A \\\"quoted\\\" word\", \"voice_id\":\"v\"\x7d]\x7d trailing text"

/-- A 601-character text value. -/
def text601 : String := String.mk (List.replicate 601 'a')

/-- A text value with an internal run of whitespace. -/
def spacedText : String := "a  b"

/-- A schema-valid JSON value, parsed from nothing in particular, whose
top level is valid JSON but matches neither schema. -/
def fooJson : Json := Json.obj [("foo", Json.num "1")]

def rawFoo : String := "\x7b\"foo\": 1\x7d"

def twoLines : List DialogueLine := [⟨"Hi", "v1"⟩, ⟨"Hello", "v2"⟩]

def sampleSynth : SynthesisResult :=
  { audioPath := "out/podcast_0.mp3", bytes := 3, mime := "audio/mpeg"
    format := "mp3_44100_128", inlineBase64 := none, inlin := false
    maxInlineBytes := 5242880 }

/-! ## Helper lemmas -/

theorem countSynthCalls_append (a b : List AgentAction) :
    countSynthCalls (a ++ b) = countSynthCalls a + countSynthCalls b := by
  simp [countSynthCalls, List.filter_append]

theorem mem_addUnique (acc : List String) (y x : String) :
    x ∈ addUnique acc y ↔ x ∈ acc ∨ x = y := by
  unfold addUnique
  by_cases h : y ∈ acc
  · rw [if_pos h]
    constructor
    · exact Or.inl
    · rintro (hx | rfl)
      · exact hx
      · exact h
  · rw [if_neg h]
    simp

theorem nodup_addUnique (acc : List String) (y : String) (h : acc.Nodup) :
    (addUnique acc y).Nodup := by
  unfold addUnique
  by_cases hy : y ∈ acc
  · rwa [if_pos hy]
  · rw [if_neg hy]
    simp [List.nodup_append, h, hy]

theorem mem_mentionsFold (env : Env) (l : List String) (acc : List String) (x : String) :
    x ∈ l.foldl (fun acc m => if keepsMention env m then addUnique acc m else acc) acc ↔
      x ∈ acc ∨ (x ∈ l ∧ keepsMention env x) := by
  induction l generalizing acc with
  | nil => simp
  | cons m tl ih =>
    simp only [List.foldl_cons, List.mem_cons]
    rw [ih]
    by_cases hk : keepsMention env m
    · rw [if_pos hk, mem_addUnique]
      constructor
      · rintro (⟨h | rfl⟩ | ⟨h1, h2⟩)
        · exact Or.inl h
        · exact Or.inr ⟨Or.inl rfl, hk⟩
        · exact Or.inr ⟨Or.inr h1, h2⟩
      · rintro (h | ⟨h1 | h1, h2⟩)
        · exact Or.inl (Or.inl h)
        · subst h1
          exact Or.inl (Or.inr rfl)
        · exact Or.inr ⟨h1, h2⟩
    · rw [if_neg hk]
      constructor
      · rintro (h | ⟨h1, h2⟩)
        · exact Or.inl h
        · exact Or.inr ⟨Or.inr h1, h2⟩
      · rintro (h | ⟨h1 | h1, h2⟩)
        · exact Or.inl h
        · subst h1
          exact absurd h2 hk
        · exact Or.inr ⟨h1, h2⟩

theorem nodup_mentionsFold (env : Env) (l : List String) (acc : List String)
    (h : acc.Nodup) :
    (l.foldl (fun acc m => if keepsMention env m then addUnique acc m else acc) acc).Nodup := by
  induction l generalizing acc with
  | nil => simpa
  | cons m tl ih =>
    simp only [List.foldl_cons]
    apply ih
    by_cases hk : keepsMention env m
    · rw [if_pos hk]
      exact nodup_addUnique acc m h
    · rwa [if_neg hk]

theorem length_pos_of_ne_empty (s : String) (h : s ≠ "") : 1 ≤ s.length := by
  cases s with
  | mk data =>
    cases data with
    | nil => exact absurd rfl h
    | cons c cs => exact Nat.succ_le_succ (Nat.zero_le _)

theorem lineSafeParse_roundtrip (l : DialogueLine) (ht : l.text ≠ "") (hv : l.voice_id ≠ "") :
    lineSafeParse (lineToJson l) = some l := by
  show (if 1 ≤ l.text.length ∧ 1 ≤ l.voice_id.length
    then some (⟨l.text, l.voice_id⟩ : DialogueLine) else none) = some l
  rw [if_pos ⟨length_pos_of_ne_empty _ ht, length_pos_of_ne_empty _ hv⟩]

theorem linesOfJsonList_roundtrip (lines : List DialogueLine)
    (h : ∀ l ∈ lines, l.text ≠ "" ∧ l.voice_id ≠ "") :
    linesOfJsonList (lines.map lineToJson) = some lines := by
  induction lines with
  | nil => rfl
  | cons l tl ih =>
    have hl := h l (by simp)
    simp only [List.map_cons, linesOfJsonList]
    rw [lineSafeParse_roundtrip l hl.1 hl.2, ih (fun x hx => h x (by simp [hx]))]

theorem lineArraySafeParse_roundtrip (lines : List DialogueLine)
    (h : ∀ l ∈ lines, l.text ≠ "" ∧ l.voice_id ≠ "") (hne : lines ≠ []) :
    lineArraySafeParse (Json.arr (lines.map lineToJson)) = some lines := by
  have h1 := linesOfJsonList_roundtrip lines h
  have hlen : 1 ≤ lines.length := Nat.succ_le_of_lt (List.length_pos.mpr hne)
  simp [lineArraySafeParse, h1, hlen]

/-! ## Claim theorems -/

/-- Claim C10: when MAX_INLINE_BYTES is unset, unparsable, or not strictly
positive, the effective inline ceiling is exactly 5242880 bytes; otherwise
it is the parsed value; in every case the ceiling is positive. -/
theorem C10_max_inline_config (raw : Option String) :
    0 < maxInlineBytesOf raw ∧
    (raw = none → maxInlineBytesOf raw = 5242880) ∧
    (∀ s, raw = some s → jsParseIntDec s = none → maxInlineBytesOf raw = 5242880) ∧
    (∀ s v, raw = some s → jsParseIntDec s = some v → v ≤ 0 →
      maxInlineBytesOf raw = 5242880) ∧
    (∀ s v, raw = some s → jsParseIntDec s = some v → 0 < v →
      maxInlineBytesOf raw = v) := by
  have hdef : defaultMaxInline = 5242880 := by decide
  refine ⟨?_, ?_, ?_, ?_, ?_⟩
  · cases raw with
    | none => decide
    | some s =>
      show 0 < maxInlineBytesOf (some s)
      simp only [maxInlineBytesOf]
      by_cases hs : s = ""
      · rw [if_pos hs]
        decide
      · rw [if_neg hs]
        cases hv : jsParseIntDec s with
        | none => decide
        | some v =>
          show 0 < if 0 < v then v else defaultMaxInline
          by_cases hpos : 0 < v
          · rwa [if_pos hpos]
          · rw [if_neg hpos]
            decide
  · rintro rfl
    decide
  · rintro s rfl hnone
    simp only [maxInlineBytesOf]
    by_cases hs : s = ""
    · rw [if_pos hs]
      exact hdef
    · rw [if_neg hs, hnone]
      exact hdef
  · rintro s v rfl hv hle
    simp only [maxInlineBytesOf]
    by_cases hs : s = ""
    · rw [if_pos hs]
      exact hdef
    · rw [if_neg hs, hv]
      show (if 0 < v then v else defaultMaxInline) = 5242880
      rw [if_neg (Int.not_lt.mpr hle)]
      exact hdef
  · rintro s v rfl hv hpos
    simp only [maxInlineBytesOf]
    by_cases hs : s = ""
    · subst hs
      rw [show jsParseIntDec "" = none from rfl] at hv
      cases hv
    · rw [if_neg hs, hv]
      show (if 0 < v then v else defaultMaxInline) = v
      rw [if_pos hpos]

/-- Witness for C10 at the concrete raw values none, "abc", "-3" and "7". -/
theorem C10_max_inline_config_witness :
    maxInlineBytesOf none = 5242880 ∧ maxInlineBytesOf (some "abc") = 5242880 ∧
    maxInlineBytesOf (some "-3") = 5242880 ∧ maxInlineBytesOf (some "7") = 7 := by
  refine ⟨(C10_max_inline_config none).2.1 rfl, ?_, ?_, ?_⟩
  · exact (C10_max_inline_config (some "abc")).2.2.1 "abc" rfl (by decide)
  · exact (C10_max_inline_config (some "-3")).2.2.2.1 "-3" (-3) rfl (by decide) (by decide)
  · exact (C10_max_inline_config (some "7")).2.2.2.2 "7" 7 rfl (by decide) (by decide)

/-- Claim C6: on a successful provider response the dispatcher returns a
result (not an error), and that result carries an inline base64 payload
iff the inline-return policy is enabled and the audio byte size is at or
under the effective ceiling. -/
theorem C6_inline_policy (env : Env) (inputs : List DialogueLine) (res : FetchResponse)
    (now : Nat) (h : res.ok = true) :
    (synthesizeWithElevenLabs env inputs res now).toOption.isSome = true ∧
    (((synthesizeWithElevenLabs env inputs res now).toOption.map
        fun r => r.inlineBase64.isSome) = some true ↔
      env.returnBase64 = true ∧
        (res.bodyBytes.length : Int) ≤ maxInlineBytesOf env.maxInlineRaw) := by
  simp only [synthesizeWithElevenLabs, h]
  constructor
  · simp [Except.toOption]
  · simp only [Except.toOption]
    cases hr : env.returnBase64 with
    | false => simp
    | true =>
      by_cases hle : (res.bodyBytes.length : Int) ≤ maxInlineBytesOf env.maxInlineRaw
      · simp [hle]
      · simp [hle]

set_option maxRecDepth 8000 in
/-- Witness for C6 with the inline policy enabled and a 1000-byte ceiling:
a 999-byte payload is returned inline, a 1001-byte payload is returned
without an inline encoding and without an error. -/
theorem C6_inline_policy_witness :
    ((synthesizeWithElevenLabs inlineEnv [] res999 0).toOption.map
      fun r => r.inlineBase64.isSome) = some true ∧
    ((synthesizeWithElevenLabs inlineEnv [] res1001 0).toOption.map
      fun r => r.inlineBase64.isSome) = some false ∧
    (synthesizeWithElevenLabs inlineEnv [] res1001 0).toOption.isSome = true := by
  refine ⟨(C6_inline_policy inlineEnv [] res999 0 rfl).2.mpr ⟨rfl, by decide⟩, ?_,
    (C6_inline_policy inlineEnv [] res1001 0 rfl).1⟩
  have h2 := (C6_inline_policy inlineEnv [] res1001 0 rfl).2
  have h3 : ¬((res1001.bodyBytes.length : Int) ≤ maxInlineBytesOf inlineEnv.maxInlineRaw) := by
    decide
  cases hmo : (synthesizeWithElevenLabs inlineEnv [] res1001 0).toOption.map
      fun r => r.inlineBase64.isSome with
  | none =>
    have := (C6_inline_policy inlineEnv [] res1001 0 rfl).1
    rw [Option.isSome_iff_exists] at this
    obtain ⟨r, hr⟩ := this
    rw [hr] at hmo
    simp at hmo
  | some b =>
    cases b with
    | false => rfl
    | true => exact absurd ((h2.mp hmo).2) h3

/-- Claim C5 counterexample: a mention of `article_fetcher`, which is not
this agent itself, is dropped from the addressee list, contradicting the
claim that no mention other than the agent itself is dropped. -/
theorem C5_counterexample :
    buildMentions sampleEnv mentionMsg = ["user1", "other_agent", "podcast_tts"] ∧
    "article_fetcher" ∈ mentionMsg.mentions ∧
    normalizeMention "article_fetcher" ≠ normalizedAgentId sampleEnv ∧
    "article_fetcher" ∉ buildMentions sampleEnv mentionMsg := by
  refine ⟨rfl, by decide, by decide, ?_⟩
  rw [show buildMentions sampleEnv mentionMsg = ["user1", "other_agent", "podcast_tts"]
    from rfl]
  decide

/-- Claim C5 (amended): the addressee list is duplicate-free and contains
exactly the original sender (when nonempty), those original mentions whose
normalized form is nonempty and equal to neither the agent's normalized id
nor "article_fetcher", and the agent's own id. -/
theorem C5_mentions_characterization (env : Env) (msg : ResolvedMessage) :
    (buildMentions env msg).Nodup ∧
    ∀ x, x ∈ buildMentions env msg ↔
      (x = msg.senderId ∧ msg.senderId ≠ "") ∨
      (x ∈ msg.mentions ∧ normalizeMention x ≠ "" ∧
        normalizeMention x ≠ normalizedAgentId env ∧
        normalizeMention x ≠ "article_fetcher") ∨
      x = env.agentId := by
  have hstart : ∀ x, (x ∈ (if msg.senderId ≠ "" then addUnique [] msg.senderId else []) ↔
      (x = msg.senderId ∧ msg.senderId ≠ "")) := by
    intro x
    by_cases hs : msg.senderId = ""
    · simp [hs]
    · simp [hs, addUnique]
  constructor
  · simp only [buildMentions]
    apply nodup_addUnique
    apply nodup_mentionsFold
    by_cases hs : msg.senderId = "" <;> simp [hs, addUnique]
  · intro x
    simp only [buildMentions]
    rw [mem_addUnique, mem_mentionsFold, hstart x]
    unfold keepsMention
    tauto

set_option maxRecDepth 8000 in
/-- Claim C3 counterexample: the schema performs no whitespace
normalization and imposes no 600-character ceiling — a 601-character text
passes validation verbatim, and an internal whitespace run is kept. -/
theorem C3_counterexample :
    payloadSafeParse (Json.obj [("dialogue", Json.arr [Json.obj
        [("text", Json.str text601), ("voice_id", Json.str "v")]])]) =
      some [⟨text601, "v"⟩] ∧
    text601.length = 601 ∧
    payloadSafeParse (Json.obj [("dialogue", Json.arr [Json.obj
        [("text", Json.str spacedText), ("voice_id", Json.str "v")]])]) =
      some [⟨spacedText, "v"⟩] ∧
    spacedText = "a  b" := by
  exact ⟨rfl, rfl, rfl, rfl⟩

/-- Claim C3 (amended): the validator accepts exactly nonempty `text` and
`voice_id` values and a nonempty array; it does not normalize whitespace,
and imposes no upper bound on text length or entry count — every list of
lines with nonempty fields round-trips verbatim, and an empty text or
empty voice id is rejected. -/
theorem C3_validator_no_bounds (lines : List DialogueLine)
    (h : ∀ l ∈ lines, l.text ≠ "" ∧ l.voice_id ≠ "") (hne : lines ≠ []) :
    payloadSafeParse (Json.obj [("dialogue", Json.arr (lines.map lineToJson))]) =
      some lines ∧
    altSafeParse (Json.obj [("inputs", Json.arr (lines.map lineToJson))]) =
      some lines ∧
    lineSafeParse (lineToJson ⟨"", "v"⟩) = none ∧
    lineSafeParse (lineToJson ⟨"t", ""⟩) = none ∧
    payloadSafeParse (Json.obj [("dialogue", Json.arr [])]) = none := by
  refine ⟨?_, ?_, rfl, rfl, rfl⟩
  · show lineArraySafeParse (Json.arr (lines.map lineToJson)) = some lines
    exact lineArraySafeParse_roundtrip lines h hne
  · show lineArraySafeParse (Json.arr (lines.map lineToJson)) = some lines
    exact lineArraySafeParse_roundtrip lines h hne

set_option maxRecDepth 8000 in
/-- Witness for C3 at a singleton 601-character line and at a
101-entry line list (both beyond the claimed bounds, both accepted). -/
theorem C3_validator_no_bounds_witness :
    payloadSafeParse (Json.obj [("dialogue", Json.arr
        (([⟨text601, "v"⟩] : List DialogueLine).map lineToJson))]) =
      some [⟨text601, "v"⟩] ∧
    payloadSafeParse (Json.obj [("dialogue", Json.arr
        ((List.replicate 101 (⟨"a", "v"⟩ : DialogueLine)).map lineToJson))]) =
      some (List.replicate 101 ⟨"a", "v"⟩) := by
  constructor
  · exact (C3_validator_no_bounds [⟨text601, "v"⟩] (by decide) (by decide)).1
  · exact (C3_validator_no_bounds (List.replicate 101 ⟨"a", "v"⟩) (by decide) (by decide)).1

/-- Claim C7: when the whole trimmed text parses as JSON but the candidate
matches neither the dialogue nor the inputs schema, the direct-parse
strategy does not succeed and extraction proceeds exactly as the
fenced-block stage on the trimmed text. -/
theorem C7_direct_schema_gate (raw : String) (j : Json)
    (hne : jsTrim raw ≠ "") (hp : jsonParse (jsTrim raw) = some j)
    (h1 : payloadSafeParse j = none) (h2 : altSafeParse j = none) :
    extractInputs raw = fenceStage (jsTrim raw) := by
  have hs : schemasAttempt j = none := by
    simp [schemasAttempt, h1, h2]
  simp only [extractInputs]
  rw [if_neg hne, hp]
  simp only [hs]

/-- Witness for C7: an input that is valid JSON but schema-invalid falls
through to the fenced-block stage (which here finds no fence and reports
the unable-to-parse error). -/
theorem C7_direct_schema_gate_witness :
    extractInputs rawFoo = fenceStage (jsTrim rawFoo) ∧
    fenceStage (jsTrim rawFoo) = Except.error unableMsg := by
  refine ⟨C7_direct_schema_gate rawFoo fooJson (by decide) rfl rfl rfl, rfl⟩

/-- Claim C2 counterexample: the spec's brace-balance example — a dialogue
object embedded in prose with no fence — is not recovered; extraction
fails with the unable-to-parse error, because the extractor has no
balanced-brace strategy. -/
theorem C2_counterexample :
    extractInputs specProseInput = Except.error unableMsg ∧
    extractInputs specProseInput ≠ Except.ok [⟨"A \"quoted\" word", "v"⟩] := by
  have h : extractInputs specProseInput = Except.error unableMsg := rfl
  refine ⟨h, ?_⟩
  intro hcontra
  rw [h] at hcontra
  exact Except.noConfusion hcontra

/-- Claim C2 (amended): there are only two extraction strategies; when the
trimmed text is not valid JSON as a whole and contains no fenced block,
extraction fails with the unable-to-parse error, so JSON embedded in bare
prose is rejected rather than recovered. -/
theorem C2_no_brace_scan (raw : String)
    (hne : jsTrim raw ≠ "") (hp : jsonParse (jsTrim raw) = none)
    (hf : findFenceCapture (jsTrim raw) = none) :
    extractInputs raw = Except.error unableMsg := by
  simp only [extractInputs]
  rw [if_neg hne, hp]
  simp only [fenceStage, hf]

/-- Witness for C2 at the spec's concrete prose-embedded input. -/
theorem C2_no_brace_scan_witness :
    extractInputs specProseInput = Except.error unableMsg := by
  exact C2_no_brace_scan specProseInput (by decide) rfl rfl

/-- Claim C1 counterexample: the handler keeps no per-thread fingerprint
state — processing the same validated dialogue content twice in the same
thread without any force flag issues two synthesis calls, not one. -/
theorem C1_counterexample :
    countSynthCalls (handleMessage sampleEnv sampleMsg okResponse 0 ++
      handleMessage sampleEnv sampleMsg okResponse 0) = 2 ∧
    countSynthCalls (handleMessage sampleEnv sampleMsg okResponse 0 ++
      handleMessage sampleEnv sampleMsg okResponse 0) ≠ 1 := by
  have h : countSynthCalls (handleMessage sampleEnv sampleMsg okResponse 0 ++
      handleMessage sampleEnv sampleMsg okResponse 0) = 2 := rfl
  refine ⟨h, ?_⟩
  rw [h]
  decide

/-- Claim C1 (amended): there is no dedup guard; every message accepted by
the mention filter whose content validates issues exactly one synthesis
call, so processing the same content twice — with or without a force
key — issues two synthesis calls. -/
theorem C1_no_dedup_guard (env : Env) (msg : ResolvedMessage) (res : FetchResponse)
    (now : Nat) (inputs : List DialogueLine)
    (hresp : shouldRespond env msg = true)
    (hex : extractInputs msg.content = Except.ok inputs) :
    countSynthCalls (handleMessage env msg res now) = 1 ∧
    countSynthCalls (handleMessage env msg res now ++ handleMessage env msg res now) = 2 := by
  have h1 : countSynthCalls (handleMessage env msg res now) = 1 := by
    simp only [handleMessage, hresp, if_true, hex]
    cases hsy : synthesizeWithElevenLabs env inputs res now <;> rfl
  exact ⟨h1, by rw [countSynthCalls_append, h1]⟩

/-- Witness for C1 at the sample message (and at the same content carrying
a sibling force key, which the schema ignores). -/
theorem C1_no_dedup_guard_witness :
    countSynthCalls (handleMessage sampleEnv sampleMsg okResponse 0 ++
      handleMessage sampleEnv sampleMsg okResponse 0) = 2 ∧
    countSynthCalls (handleMessage sampleEnv forceMsg okResponse 0 ++
      handleMessage sampleEnv forceMsg okResponse 0) = 2 := by
  constructor
  · exact (C1_no_dedup_guard sampleEnv sampleMsg okResponse 0 [⟨"Hi", "v1"⟩] rfl rfl).2
  · exact (C1_no_dedup_guard sampleEnv forceMsg okResponse 0 [⟨"Hi", "v1"⟩] rfl rfl).2

/-- Claim C4 counterexample: with the output format configured as `wav`,
the result still reports MIME type audio/mpeg and persists under a `.mp3`
filename — the format tag does not determine either. -/
theorem C4_counterexample :
    synthesizeWithElevenLabs wavEnv twoLines okResponse 0 =
      Except.ok { audioPath := "out/podcast_0.mp3", bytes := 3, mime := "audio/mpeg"
                  format := "wav", inlineBase64 := none, inlin := false
                  maxInlineBytes := 5242880 } ∧
    ("audio/mpeg" : String) ≠ "audio/wav" := by
  exact ⟨rfl, by decide⟩

/-- Claim C4 (amended): on success the reported MIME type is always
audio/mpeg and the persisted filename always ends in `.mp3`, regardless of
the configured format tag, which is merely echoed in the result's format
field. -/
theorem C4_constant_mime (env : Env) (inputs : List DialogueLine) (res : FetchResponse)
    (now : Nat) (h : res.ok = true) :
    ((synthesizeWithElevenLabs env inputs res now).toOption.map
      fun r => (r.mime, r.format)) = some ("audio/mpeg", env.outputFormat) ∧
    ∀ r, synthesizeWithElevenLabs env inputs res now = Except.ok r →
      ".mp3".data <:+ r.audioPath.data := by
  constructor
  · simp [synthesizeWithElevenLabs, h, Except.toOption]
  · intro r hr
    simp only [synthesizeWithElevenLabs, h, Bool.true_eq_false, if_false,
      Except.ok.injEq] at hr
    subst hr
    show ".mp3".data <:+ ((env.outputDir ++ "/podcast_" ++ toString now) ++ ".mp3").data
    rw [String.data_append]
    exact List.suffix_append _ _

/-- Witness for C4 at the wav-configured environment. -/
theorem C4_constant_mime_witness :
    ((synthesizeWithElevenLabs wavEnv twoLines okResponse 0).toOption.map
      fun r => (r.mime, r.format)) = some ("audio/mpeg", "wav") := by
  exact (C4_constant_mime wavEnv twoLines okResponse 0 rfl).1

/-- Claim C8: the provider request body's `inputs` field is exactly the
validated lines in their original order — the schema decode of the body
returns the very same list — and the success reply's `inputs` field holds
that same encoding, which decodes back to the same list. -/
theorem C8_order_preservation (inputs : List DialogueLine) (r : SynthesisResult)
    (h : ∀ l ∈ inputs, l.text ≠ "" ∧ l.voice_id ≠ "") (hne : inputs ≠ []) :
    altSafeParse (elevenLabsRequestBody inputs) = some inputs ∧
    objField (successReplyJson inputs r) "inputs" =
      some (Json.arr (inputs.map lineToJson)) ∧
    lineArraySafeParse (Json.arr (inputs.map lineToJson)) = some inputs := by
  refine ⟨?_, rfl, lineArraySafeParse_roundtrip inputs h hne⟩
  show lineArraySafeParse (Json.arr (inputs.map lineToJson)) = some inputs
  exact lineArraySafeParse_roundtrip inputs h hne

/-- Witness for C8 at a concrete two-line dialogue. -/
theorem C8_order_preservation_witness :
    altSafeParse (elevenLabsRequestBody twoLines) = some twoLines ∧
    objField (successReplyJson twoLines sampleSynth) "inputs" =
      some (Json.arr (twoLines.map lineToJson)) := by
  have h := C8_order_preservation twoLines sampleSynth (by decide) (by decide)
  exact ⟨h.1, h.2.1⟩

/-- Claim C9: extraction failures become a structured success-false reply
with the error message (no exception escapes the handler); a non-2xx
provider response yields an error carrying the status code and body text,
which the handler turns into a structured success-false reply that still
echoes the inputs. -/
theorem C9_structured_failures (env : Env) (msg : ResolvedMessage) (res : FetchResponse)
    (now : Nat) :
    (∀ e, shouldRespond env msg = true → extractInputs msg.content = Except.error e →
      handleMessage env msg res now =
        [AgentAction.send msg.threadId (errorReplyJson e) (buildMentions env msg)]) ∧
    (∀ inputs, res.ok = false →
      synthesizeWithElevenLabs env inputs res now =
        Except.error ("ElevenLabs error " ++ toString res.status ++ ": " ++ res.bodyText)) ∧
    (∀ inputs, shouldRespond env msg = true → extractInputs msg.content = Except.ok inputs →
      res.ok = false →
      handleMessage env msg res now =
        [AgentAction.synthCall inputs (elevenLabsRequestBody inputs),
         AgentAction.send msg.threadId
           (failReplyJson ("ElevenLabs error " ++ toString res.status ++ ": " ++ res.bodyText)
             inputs)
           (buildMentions env msg)]) := by
  have hsy : ∀ inputs, res.ok = false →
      synthesizeWithElevenLabs env inputs res now =
        Except.error ("ElevenLabs error " ++ toString res.status ++ ": " ++ res.bodyText) := by
    intro inputs hok
    simp [synthesizeWithElevenLabs, hok]
  refine ⟨?_, hsy, ?_⟩
  · intro e hresp hee
    simp only [handleMessage, hresp, if_true, hee]
  · intro inputs hresp hex hok
    simp only [handleMessage, hresp, if_true, hex, hsy inputs hok]

/-- Witness for C9: a non-JSON message yields the structured
unable-to-parse reply; a 500 response with body text yields an error
string carrying both, and the handler sends the structured failure reply
echoing the inputs. -/
theorem C9_structured_failures_witness :
    handleMessage sampleEnv badMsg okResponse 0 =
      [AgentAction.send "thread-1" (errorReplyJson unableMsg)
        (buildMentions sampleEnv badMsg)] ∧
    synthesizeWithElevenLabs sampleEnv [⟨"Hi", "v1"⟩] res500 0 =
      Except.error "ElevenLabs error 500: boom" ∧
    handleMessage sampleEnv sampleMsg res500 0 =
      [AgentAction.synthCall [⟨"Hi", "v1"⟩] (elevenLabsRequestBody [⟨"Hi", "v1"⟩]),
       AgentAction.send "thread-1" (failReplyJson "ElevenLabs error 500: boom" [⟨"Hi", "v1"⟩])
         (buildMentions sampleEnv sampleMsg)] := by
  refine ⟨(C9_structured_failures sampleEnv badMsg okResponse 0).1 unableMsg rfl rfl, ?_, ?_⟩
  · exact (C9_structured_failures sampleEnv badMsg res500 0).2.1 [⟨"Hi", "v1"⟩] rfl
  · exact (C9_structured_failures sampleEnv sampleMsg res500 0).2.2 [⟨"Hi", "v1"⟩] rfl rfl rfl
